import Mathlib

/-!
Verification development for the multi-agent civic-reaction simulator.

This file gives a shallow embedding, in Lean 4, of the orchestration core of
the simulator (zone-sentiment aggregation, agent fan-out, town-hall
generation, session/thread registry, relationship graph, fingerprint cache,
upstream client, and the progressive simulation job), together with theorems
settling the specified properties against that embedding.

Modelling conventions:
- Python floats are modelled as rationals (`ℚ`); Python `round(x, 3)` is
  modelled as round-half-to-even at three decimals, matching CPython's
  documented rounding mode on exactly representable inputs.
- JSON decoding of upstream replies is modelled by an `Option` of a typed
  payload: `none` stands for "the reply was not valid JSON / failed pydantic
  validation", `some raw` for a decoded well-typed payload.
- The cryptographic digests (`hashlib.sha256(...).hexdigest()`,
  `hashlib.md5(...).hexdigest()`) are library calls external to the program;
  they are passed in as explicit function arguments of the embedded
  fingerprint computations, which therefore expose exactly which string is
  hashed and how the digest is truncated.
- In-memory Python dicts are modelled as functions `String → Option _`
  (point-wise update) or association lists where iteration order matters.
- UI-only pass-through fields that no embedded computation ever reads
  (agent avatar/role/bio/tags and zone description/demographics) are
  projected away from the catalogs and records.
-/

/-! ## Basic helpers -/

/-- Characters stripped by Python's `str.strip()` with no arguments
(ASCII whitespace; the upstream-client guard only ever distinguishes
"all whitespace" from "has a printable character"). -/
def isPySpace (c : Char) : Bool :=
  c = ' ' ∨ c = '\t' ∨ c = '\n' ∨ c = '\r' ∨ c = '\x0b' ∨ c = '\x0c'

/-- Python `s.strip()`: drop leading and trailing whitespace. -/
def pyStrip (s : String) : String :=
  ⟨((s.data.dropWhile isPySpace).reverse.dropWhile isPySpace).reverse⟩

/-- Python truthiness of an optional string (`if x:`): `None` and `""` are falsy. -/
def pyTruthyStr : Option String → Bool
  | none => false
  | some s => s ≠ ""

/-- Source `max lo (min hi x)`, the Python clamp idiom `max(lo, min(hi, x))`. -/
def clampQ (lo hi x : ℚ) : ℚ := max lo (min hi x)

/-- Round a rational to the nearest integer, ties to even
(CPython's `round`). -/
def roundHalfEven (q : ℚ) : ℤ :=
  let f : ℤ := ⌊q⌋
  let r : ℚ := q - f
  if r < 1/2 then f
  else if 1/2 < r then f + 1
  else if f % 2 = 0 then f else f + 1

/-- Python `round(x, 3)`. -/
def round3 (q : ℚ) : ℚ := (roundHalfEven (q * 1000) : ℚ) / 1000

/-! ## Static catalogs (`app/agents/definitions.py`)

Canonical rule of the source: `agent_key == zone_id`; one agent per zone.
Only the fields read by the embedded computations are kept: a zone's `id`
and `name`, an agent's `key`, `name` and `display_name`. -/

structure Zone where
  id : String
  name : String
deriving DecidableEq, Repr

structure Agent where
  key : String
  name : String
  displayName : String
deriving DecidableEq, Repr

def ZONES : List Zone := [
  ⟨"queens_west", "Queen's West Campus"⟩,
  ⟨"queens_main", "Queen's Main Campus"⟩,
  ⟨"union_stuart", "Union-Stuart"⟩,
  ⟨"kingscourt", "Kingscourt"⟩,
  ⟨"williamsville", "Williamsville"⟩,
  ⟨"portsmouth", "Portsmouth Village"⟩,
  ⟨"cataraqui_west", "Cataraqui West"⟩,
  ⟨"highway_15_corridor", "Highway 15 Corridor"⟩,
  ⟨"strathcona_park", "Strathcona Park"⟩,
  ⟨"victoria_park", "Victoria Park"⟩,
  ⟨"north_end", "North End"⟩,
  ⟨"skeleton_park", "Skeleton Park"⟩,
  ⟨"inner_harbour", "Inner Harbour"⟩,
  ⟨"sydenham", "Sydenham Ward"⟩,
  ⟨"johnson_triangle", "Johnson Triangle"⟩,
  ⟨"calvin_park", "Calvin Park"⟩,
  ⟨"rideau_heights", "Rideau Heights"⟩,
  ⟨"henderson", "Henderson"⟩,
  ⟨"market_square", "Market Square"⟩,
  ⟨"cataraqui_centre", "Cataraqui Centre"⟩,
  ⟨"lake_ontario_park", "Lake Ontario Park"⟩]

def AGENTS : List Agent := [
  ⟨"queens_west", "Athlete & Residence", "Marcus Thompson"⟩,
  ⟨"queens_main", "Professor & Researcher", "Dr. Priya Sharma"⟩,
  ⟨"union_stuart", "Young Professional", "Jordan Chen"⟩,
  ⟨"kingscourt", "Established Homeowner", "Barbara Mitchell"⟩,
  ⟨"williamsville", "Small Business Owner", "Tony Marchetti"⟩,
  ⟨"portsmouth", "Heritage Advocate", "Eleanor Whitfield"⟩,
  ⟨"cataraqui_west", "Young Family", "Aisha & Omar Hassan"⟩,
  ⟨"highway_15_corridor", "Warehouse Worker", "Derek Fowler"⟩,
  ⟨"strathcona_park", "Lawyer & Park User", "Catherine Blackwood"⟩,
  ⟨"victoria_park", "Community Organizer", "Kenji Nakamura"⟩,
  ⟨"north_end", "Parent & Teacher", "Michelle Tremblay"⟩,
  ⟨"skeleton_park", "Artist & Activist", "River Songbird"⟩,
  ⟨"inner_harbour", "Marina Operator", "Captain Bob MacLeod"⟩,
  ⟨"sydenham", "Housing Advocate", "Denise Williams"⟩,
  ⟨"johnson_triangle", "Transit Rider", "Aaliyah Jackson"⟩,
  ⟨"calvin_park", "Suburban Dad", "Greg Patterson"⟩,
  ⟨"rideau_heights", "Community Worker", "Fatima Osman"⟩,
  ⟨"henderson", "Retired Couple", "Harold & Marge Simpson"⟩,
  ⟨"market_square", "Restaurant Owner", "Franco Benedetti"⟩,
  ⟨"cataraqui_centre", "Retail Manager", "Stephanie Patel"⟩,
  ⟨"lake_ontario_park", "Environmentalist", "Dr. Sarah Green"⟩]

/-! ## Multi-agent schemas (`app/schemas/multi_agent.py`) -/

/-- The `Literal["support", "oppose", "neutral"]` stance/effect type. -/
inductive Stance where
  | support
  | oppose
  | neutral
deriving DecidableEq, Repr

/-- Source `ZoneEffect`: an agent's perception of the effect on one zone. -/
structure ZoneEffect where
  zoneId : String
  effect : Stance
  intensity : ℚ
deriving DecidableEq, Repr

/-- Source `AgentReaction` (fields read by the embedded computations). -/
structure AgentReaction where
  agentKey : String
  agentName : String
  stance : Stance
  intensity : ℚ
  supportReasons : List String
  concerns : List String
  quote : String
  whatWouldChangeMyMind : List String
  zonesMostAffected : List ZoneEffect
  proposedAmendments : List String
deriving DecidableEq, Repr

/-- Source `QuoteAttribution`: a quote with its source agent. -/
structure QuoteAttribution where
  agentName : String
  quote : String
deriving DecidableEq, Repr

/-- Source `ZoneSentiment`: aggregated sentiment for a zone. -/
structure ZoneSentiment where
  zoneId : String
  zoneName : String
  sentiment : Stance
  score : ℚ
  topSupportQuotes : List QuoteAttribution
  topOpposeQuotes : List QuoteAttribution
deriving DecidableEq, Repr

/-- Source `TranscriptTurn`: one turn of the town-hall debate. -/
structure TranscriptTurn where
  speaker : String
  text : String
deriving DecidableEq, Repr

/-- Source `TownHallTranscript`. -/
structure TownHallTranscript where
  moderatorSummary : String
  turns : List TranscriptTurn
  compromiseOptions : List String
deriving DecidableEq, Repr

/-! ## Zone sentiment aggregator (`app/agents/aggregator.py`)

`SentimentAggregator.aggregate` walks the static zone catalog; for each zone
it collects one score per reaction (the zone-specific effect when the
reaction mentions the zone in `zones_most_affected`, otherwise the overall
stance at half weight), averages them, clamps, thresholds the sentiment at
±0.2, and keeps the top two support/oppose quotes by intensity. -/

namespace SentimentAggregator

/-- The `for ze in reaction.zones_most_affected: if ze.zone_id == zone_id:
zone_effect = ze; break` loop: first matching zone effect, if any. -/
def zoneEffectFor (r : AgentReaction) (zoneId : String) : Option ZoneEffect :=
  r.zonesMostAffected.find? (fun ze => ze.zoneId = zoneId)

/-- The score one reaction contributes to one zone. -/
def scoreFor (zoneId : String) (r : AgentReaction) : ℚ :=
  match zoneEffectFor r zoneId with
  | some ze =>
    match ze.effect with
    | .support => ze.intensity
    | .oppose => -ze.intensity
    | .neutral => 0
  | none =>
    match r.stance with
    | .support => r.intensity * (1/2)
    | .oppose => -r.intensity * (1/2)
    | .neutral => 0

/-- The `(reaction, intensity)` pair appended to `support_quotes`, if any. -/
def supportQuoteFor (zoneId : String) (r : AgentReaction) :
    Option (AgentReaction × ℚ) :=
  if r.quote ≠ "" then
    match zoneEffectFor r zoneId with
    | some ze => if ze.effect = .support then some (r, ze.intensity) else none
    | none =>
      if r.stance = .support then some (r, r.intensity * (1/2)) else none
  else none

/-- The `(reaction, intensity)` pair appended to `oppose_quotes`, if any. -/
def opposeQuoteFor (zoneId : String) (r : AgentReaction) :
    Option (AgentReaction × ℚ) :=
  if r.quote ≠ "" then
    match zoneEffectFor r zoneId with
    | some ze => if ze.effect = .oppose then some (r, ze.intensity) else none
    | none =>
      if r.stance = .oppose then some (r, r.intensity * (1/2)) else none
  else none

/-- Stable insertion: the inserted element precedes every element whose
intensity is not larger, so among equal intensities the earlier-collected
pair stays first, matching Python's stable
`list.sort(key=..., reverse=True)`. -/
def insertByIntensityDesc (x : AgentReaction × ℚ) :
    List (AgentReaction × ℚ) → List (AgentReaction × ℚ)
  | [] => [x]
  | y :: ys => if x.2 < y.2 then y :: insertByIntensityDesc x ys else x :: y :: ys

/-- Source `quotes.sort(key=lambda x: x[1], reverse=True)`: stable descending sort. -/
def sortByIntensityDesc : List (AgentReaction × ℚ) → List (AgentReaction × ℚ)
  | [] => []
  | x :: xs => insertByIntensityDesc x (sortByIntensityDesc xs)

/-- Source `[QuoteAttribution(...) for r, _ in quotes[:2] if r.quote]`. -/
def topQuotes (quotes : List (AgentReaction × ℚ)) : List QuoteAttribution :=
  (quotes.take 2).filterMap (fun p =>
    if p.1.quote ≠ "" then some ⟨p.1.agentName, p.1.quote⟩ else none)

/-- The body of the per-zone loop of `SentimentAggregator.aggregate`. -/
def zoneSentimentOf (reactions : List AgentReaction) (zone : Zone) :
    ZoneSentiment :=
  let scores := reactions.map (scoreFor zone.id)
  let supportQuotes := reactions.filterMap (supportQuoteFor zone.id)
  let opposeQuotes := reactions.filterMap (opposeQuoteFor zone.id)
  let avgScore : ℚ := if scores ≠ [] then scores.sum / scores.length else 0
  let avgScore := clampQ (-1) 1 avgScore
  let sentiment : Stance :=
    if avgScore > 1/5 then .support
    else if avgScore < -(1/5) then .oppose
    else .neutral
  { zoneId := zone.id
    zoneName := zone.name
    sentiment := sentiment
    score := round3 avgScore
    topSupportQuotes := topQuotes (sortByIntensityDesc supportQuotes)
    topOpposeQuotes := topQuotes (sortByIntensityDesc opposeQuotes) }

/-- Source `SentimentAggregator.aggregate`. -/
def aggregate (reactions : List AgentReaction) : List ZoneSentiment :=
  ZONES.map (zoneSentimentOf reactions)

end SentimentAggregator

/-- Written from the specification's words (§4.7), for comparison with the
code: "for each zone in the static catalog, find the reaction whose agent
key equals the zone id. If present, map stance→sign (support=+1, oppose=−1,
neutral=0) and score = sign × intensity, rounded to three decimals;
sentiment equals the stance; if the stance is support/oppose and the quote
is non-empty, attach it to the matching top-quote list. If no reaction is
present for a zone, emit neutral with score 0 and empty quote lists." -/
def directMappingAggregate (reactions : List AgentReaction) :
    List ZoneSentiment :=
  ZONES.map (fun zone =>
    match reactions.find? (fun r => r.agentKey = zone.id) with
    | some r =>
      let sign : ℚ :=
        match r.stance with
        | .support => 1
        | .oppose => -1
        | .neutral => 0
      { zoneId := zone.id
        zoneName := zone.name
        sentiment := r.stance
        score := round3 (sign * r.intensity)
        topSupportQuotes :=
          if r.stance = .support ∧ r.quote ≠ "" then [⟨r.agentName, r.quote⟩]
          else []
        topOpposeQuotes :=
          if r.stance = .oppose ∧ r.quote ≠ "" then [⟨r.agentName, r.quote⟩]
          else [] }
    | none =>
      { zoneId := zone.id
        zoneName := zone.name
        sentiment := .neutral
        score := 0
        topSupportQuotes := []
        topOpposeQuotes := [] })

/-! ## Agent reactor (`app/agents/reactor.py`)

`_get_agent_reaction` sends the prompt upstream and parses the reply; every
failure mode of the upstream call or of parsing is caught inside it and
replaced by the synthetic neutral fallback reaction, so the coroutine itself
returns one reaction per agent. The decoded JSON payload of a reply is
modelled by `RawReaction` (`none` at the outcome level = not valid JSON /
failed validation). -/

/-- The decoded, type-correct JSON payload of one agent reply. -/
structure RawReaction where
  stance : Stance
  intensity : ℚ
  supportReasons : List String
  concerns : List String
  quote : String
  whatWouldChangeMyMind : List String
  zonesMostAffected : List ZoneEffect
  proposedAmendments : List String
deriving DecidableEq, Repr

/-- Outcome of one agent's upstream call, as seen by `_get_agent_reaction`:
the call raised (`BackboardError` or any other exception), the reply was not
decodable JSON, or a decoded reply. -/
inductive AgentCallOutcome where
  | upstreamFailure
  | badJson
  | reply (raw : RawReaction)
deriving DecidableEq, Repr

namespace AgentReactor

/-- Source `_fallback_reaction`: the synthetic neutral reaction used whenever the
LLM call or its parse fails. -/
def fallbackReaction (agent : Agent) : AgentReaction :=
  { agentKey := agent.key
    agentName := agent.displayName
    stance := .neutral
    intensity := 1/2
    supportReasons := []
    concerns := ["More details needed"]
    quote := "I need more information to form an opinion on this."
    whatWouldChangeMyMind := []
    zonesMostAffected := []
    proposedAmendments := [] }

/-- Source `_parse_reaction` on a decoded payload: normalize and attach the agent's
identity (`agent_key = agent["key"]`, name from `display_name`). -/
def parseReaction (agent : Agent) (raw : RawReaction) : AgentReaction :=
  { agentKey := agent.key
    agentName := agent.displayName
    stance := raw.stance
    intensity := min 1 (max 0 raw.intensity)
    supportReasons := raw.supportReasons.take 3
    concerns := raw.concerns.take 3
    quote := raw.quote.take 150
    whatWouldChangeMyMind := raw.whatWouldChangeMyMind.take 3
    zonesMostAffected := raw.zonesMostAffected
    proposedAmendments := raw.proposedAmendments.take 3 }

/-- Source `_get_agent_reaction`: on an upstream exception or an undecodable reply,
the fallback reaction; otherwise the parsed reply. Always this agent's key. -/
def getAgentReaction (agent : Agent) (outcome : AgentCallOutcome) :
    AgentReaction :=
  match outcome with
  | .upstreamFailure => fallbackReaction agent
  | .badJson => fallbackReaction agent
  | .reply raw => parseReaction agent raw

/-- Source `get_all_reactions` ("wait for all"): one task per catalog agent, results
collected in catalog order; a task failure at index `i` is replaced by
`AGENTS[i]`'s fallback (already the per-task behaviour of
`_get_agent_reaction`). `outcomes` maps an agent key to its call outcome. -/
def getAllReactions (outcomes : String → AgentCallOutcome) :
    List AgentReaction :=
  AGENTS.map (fun a => getAgentReaction a (outcomes a.key))

/-- Source `get_all_reactions_with_progress` (streaming): the same tasks consumed in
upstream completion order, which is some permutation `order` of the catalog
(each task returns normally with its own agent's reaction under the modelled
failure modes, since `_get_agent_reaction` catches them all). -/
def getAllReactionsWithProgress (order : List Agent)
    (outcomes : String → AgentCallOutcome) : List AgentReaction :=
  order.map (fun a => getAgentReaction a (outcomes a.key))

end AgentReactor

/-! ## Town-hall generator (`app/agents/townhall.py`) -/

/-- The decoded JSON payload of a moderator reply: `moderator_summary` and
`compromise_options` as `dict.get` lookups, `turns` as a list whose items
either are dicts carrying both `speaker` and `text` keys (`some`) or are
malformed (`none`, skipped). -/
structure RawTranscript where
  moderatorSummary : Option String
  turns : List (Option (String × String))
  compromiseOptions : List String
deriving DecidableEq, Repr

/-- Outcome of the moderator's upstream call as seen by
`TownHallGenerator.generate`: thread setup / send raised, or a reply whose
JSON decoding yielded `none` (parse failure) or `some` payload. -/
inductive TownhallCallOutcome where
  | upstreamFailure
  | reply (decoded : Option RawTranscript)
deriving DecidableEq, Repr

namespace TownHallGenerator

/-- Source `_fallback_transcript_from_reactions`: moderator opening, one turn per
reaction with a non-empty quote, padding up to five turns, a moderator
closing, truncated to twelve turns. -/
def fallbackTranscriptFromReactions (reactions : List AgentReaction) :
    TownHallTranscript :=
  let turns : List TranscriptTurn :=
    ⟨"Moderator",
      "Welcome to today's town hall. We'll hear from various stakeholders about this proposal."⟩
    :: reactions.filterMap (fun r =>
        if r.quote ≠ "" then some ⟨r.agentName, r.quote⟩ else none)
  let turns := turns ++ List.replicate (5 - turns.length)
    ⟨"Moderator", "Thank you for your input. Let's continue the discussion."⟩
  let turns := turns ++
    [⟨"Moderator",
      "Thank you all for participating. We'll take these perspectives under consideration."⟩]
  { moderatorSummary :=
      "A town hall discussion was held to gather community feedback on the proposal."
    turns := turns.take 12
    compromiseOptions :=
      ["Consider phased implementation", "Gather more community input"] }

/-- Source `_parse_transcript` after JSON decoding: build up to twelve turns from
well-formed items, fall back when decoding failed or fewer than five turns
were built. -/
def parseTranscript (decoded : Option RawTranscript)
    (reactions : List AgentReaction) : TownHallTranscript :=
  match decoded with
  | none => fallbackTranscriptFromReactions reactions
  | some data =>
    let turns : List TranscriptTurn :=
      (data.turns.take 12).filterMap (fun item =>
        item.map (fun p => ⟨p.1, p.2.take 250⟩))
    if turns.length < 5 then fallbackTranscriptFromReactions reactions
    else
      { moderatorSummary :=
          ((data.moderatorSummary).getD "Town hall discussion on the proposal.").take 500
        turns := turns
        compromiseOptions := data.compromiseOptions.take 3 }

/-- Source `TownHallGenerator.generate`: any `BackboardError` or other exception
from thread setup or the send is caught and answered with the fallback
transcript; otherwise the reply is parsed leniently. -/
def generate (outcome : TownhallCallOutcome)
    (reactions : List AgentReaction) : TownHallTranscript :=
  match outcome with
  | .upstreamFailure => fallbackTranscriptFromReactions reactions
  | .reply decoded => parseTranscript decoded reactions

end TownHallGenerator

/-! ## Session manager (`app/agents/session_manager.py`) -/

/-- Source `RelationshipEdge`: directed relationship between two agents. -/
structure RelationshipEdge where
  fromAgent : String
  toAgent : String
  score : ℚ
  lastReason : String := ""
  lastMessage : String := ""
  stanceBefore : Option String := none
  stanceAfter : Option String := none
  timestamp : Option String := none
deriving DecidableEq, Repr

/-- Source `SessionThreads`: the per-session registry. Python dicts keyed by
strings are modelled as `String → Option _`. -/
structure SessionThreads where
  sessionId : String
  interpreterAssistantId : Option String := none
  interpreterThreadId : Option String := none
  reactorAssistantId : Option String := none
  agentThreads : String → Option String := fun _ => none
  townhallAssistantId : Option String := none
  townhallThreadId : Option String := none
  dmThreads : String → Option String := fun _ => none
  dmAssistantId : Option String := none
  relationships : String → Option RelationshipEdge := fun _ => none

namespace SessionThreads

/-- Source `get_relationship_key`: the directed key, the source agent name,
then `->`, then the target agent name. -/
def getRelationshipKey (fromAgent toAgent : String) : String :=
  fromAgent ++ "->" ++ toAgent

/-- Arguments of one `update_relationship` call; `now` is the
`datetime.datetime.utcnow().isoformat()` value taken inside the call. -/
structure UpdateCall where
  fromAgent : String
  toAgent : String
  delta : ℚ
  reason : String := ""
  message : String := ""
  stanceBefore : Option String := none
  stanceAfter : Option String := none
  now : String
deriving DecidableEq, Repr

/-- Source `update_relationship`: fetch-or-create the edge with zero score, add the
delta and clamp to `[-1, 1]`, update the remaining fields only when the
corresponding argument is truthy, stamp the time; returns the new state and
the new score. -/
def updateRelationship (s : SessionThreads) (c : UpdateCall) :
    SessionThreads × ℚ :=
  let key := getRelationshipKey c.fromAgent c.toAgent
  let edge : RelationshipEdge :=
    (s.relationships key).getD
      { fromAgent := c.fromAgent, toAgent := c.toAgent, score := 0 }
  let newScore := clampQ (-1) 1 (edge.score + c.delta)
  let edge :=
    { edge with
      score := newScore
      lastReason := if c.reason ≠ "" then c.reason else edge.lastReason
      lastMessage :=
        if c.message ≠ "" then c.message.take 120 else edge.lastMessage
      stanceBefore :=
        if pyTruthyStr c.stanceBefore then c.stanceBefore else edge.stanceBefore
      stanceAfter :=
        if pyTruthyStr c.stanceAfter then c.stanceAfter else edge.stanceAfter
      timestamp := some c.now }
  ({ s with relationships :=
      fun k => if k = key then some edge else s.relationships k },
   newScore)

/-- A fresh session record, as created by
`SessionManager.get_or_create_session` for an unknown id. -/
def emptySession (sessionId : String) : SessionThreads :=
  { sessionId := sessionId }

/-- Apply a sequence of `update_relationship` calls. -/
def applyUpdateCalls (s : SessionThreads) (calls : List UpdateCall) :
    SessionThreads :=
  calls.foldl (fun s c => (updateRelationship s c).1) s

end SessionThreads

/-! ### Session mutators that touch thread / assistant handles

Each write site in the source guards its write on the handle being absent:
`ProposalInterpreter.interpret` (interpreter assistant + thread),
`AgentReactor._get_agent_thread` (shared reactor assistant + per-agent
thread), `TownHallGenerator.generate` (moderator assistant + thread), and
the DM endpoint (shared DM assistant + per-pair thread). An operation
carries the ids minted by the upstream; `threadId = none` models the
upstream failing between the assistant creation and the thread creation
(the exception propagates before any thread assignment).

Each operation models one lazy-creation block whose absence checks are
evaluated against the state left by the previous operations, i.e. a block
that starts only after those operations' writes. The source has no session
lock and a block's check and assignment straddle awaited upstream calls, so
blocks started concurrently interleave; that interleaving is modelled
separately below (`fanoutTrace`), and it is what refutes the original
never-overwritten claim. -/

inductive SessionOp where
  /-- The lazy-init block of `ProposalInterpreter.interpret`. -/
  | interpInit (assistantId : String) (threadId : Option String)
  /-- Source `AgentReactor._get_agent_thread` for one agent key. -/
  | reactorThreadInit (agentKey : String) (assistantId : String)
      (threadId : Option String)
  /-- The lazy-init block of `TownHallGenerator.generate`. -/
  | townhallInit (assistantId : String) (threadId : Option String)
  /-- The DM-pair lazy-init block of the direct-message endpoint. -/
  | dmInit (dmKey : String) (assistantId : String) (threadId : Option String)
  /-- Source `SessionThreads.update_relationship` (never touches handles). -/
  | updRel (c : SessionThreads.UpdateCall)

namespace SessionOp

open SessionThreads

/-- Effect of one operation on the session record. -/
def apply (s : SessionThreads) : SessionOp → SessionThreads
  | .interpInit aid tid =>
    if s.interpreterThreadId.isSome then s
    else
      let s := if s.interpreterAssistantId.isSome then s
        else { s with interpreterAssistantId := some aid }
      match tid with
      | none => s
      | some t => { s with interpreterThreadId := some t }
  | .reactorThreadInit key aid tid =>
    if (s.agentThreads key).isSome then s
    else
      let s := if s.reactorAssistantId.isSome then s
        else { s with reactorAssistantId := some aid }
      match tid with
      | none => s
      | some t =>
        { s with agentThreads := fun k =>
            if k = key then some t else s.agentThreads k }
  | .townhallInit aid tid =>
    if s.townhallThreadId.isSome then s
    else
      let s := if s.townhallAssistantId.isSome then s
        else { s with townhallAssistantId := some aid }
      match tid with
      | none => s
      | some t => { s with townhallThreadId := some t }
  | .dmInit key aid tid =>
    if (s.dmThreads key).isSome then s
    else
      let s := if s.dmAssistantId.isSome then s
        else { s with dmAssistantId := some aid }
      match tid with
      | none => s
      | some t =>
        { s with dmThreads := fun k =>
            if k = key then some t else s.dmThreads k }
  | .updRel c => (updateRelationship s c).1

/-- Run a sequence of operations. -/
def applyAll (s : SessionThreads) (ops : List SessionOp) : SessionThreads :=
  ops.foldl SessionOp.apply s

end SessionOp

/-! ## Upstream client (`app/services/backboard_client.py`) -/

/-- The single typed upstream failure `BackboardError(status, body)`. -/
structure BackboardErr where
  status : ℕ
  body : String
deriving DecidableEq, Repr

/-- One form-encoded POST as issued by `send_message`. -/
structure FormRequest where
  url : String
  form : List (String × String)
deriving DecidableEq, Repr

/-- The upstream's answer to a message POST: HTTP status, raw body, and the
decoded `content` / `text` JSON fields (absent keys are `none`). -/
structure MessageResponse where
  status : ℕ
  body : String
  content : Option String
  text : Option String
deriving DecidableEq, Repr

namespace BackboardClient

/-- Python `a or b` over optional strings where the result is then tested
for truthiness: an empty string is falsy and falls through. -/
def firstTruthy (a b : Option String) : Option String :=
  match a with
  | some s => if s ≠ "" then some s else match b with
    | some t => if t ≠ "" then some t else none
    | none => none
  | none => match b with
    | some t => if t ≠ "" then some t else none
    | none => none

/-- Source `send_message(thread_id, content, model, provider)`. The upstream is a
function from the request to its response; the second component lists the
HTTP requests actually performed. An empty or all-whitespace content fails
with the typed 400 error before any request is built. -/
def sendMessage (upstream : FormRequest → MessageResponse)
    (baseUrl threadId content model provider : String) :
    Except BackboardErr String × List FormRequest :=
  if content = "" ∨ pyStrip content = "" then
    (.error ⟨400, "Message content cannot be empty"⟩, [])
  else
    let req : FormRequest :=
      { url := baseUrl ++ "/threads/" ++ threadId ++ "/messages"
        form := [("content", content), ("stream", "false"),
                 ("memory", "Auto"), ("model", model),
                 ("provider", provider)] }
    let resp := upstream req
    if resp.status ≠ 200 then
      (.error ⟨resp.status, resp.body⟩, [req])
    else
      match firstTruthy resp.content resp.text with
      | none => (.error ⟨500, "No content in response"⟩, [req])
      | some message => (.ok message, [req])

end BackboardClient

/-! ## Fingerprint cache (`app/routers/cache.py`)

`compute_cache_key` JSON-serializes (with sorted keys, default separators,
`ensure_ascii`) a payload holding the scenario id, the proposal hash, the
agent-model and archetype-override maps as sorted lists of pairs, and the
mode, then truncates the SHA-256 hex digest to 32 characters.
`compute_proposal_hash` MD5-hashes the sorted-keys JSON of the canonical
proposal fields and truncates to 16 characters. The two hex-digest
primitives are external library calls and enter as function arguments. -/

/-- Lowercase hex digit. -/
def hexDigit (n : ℕ) : Char :=
  if n < 10 then Char.ofNat ('0'.toNat + n) else Char.ofNat ('a'.toNat + (n - 10))

/-- Four lowercase hex digits, as in a JSON `\uXXXX` escape. -/
def toHex4 (n : ℕ) : String :=
  ⟨[hexDigit (n / 4096 % 16), hexDigit (n / 256 % 16),
    hexDigit (n / 16 % 16), hexDigit (n % 16)]⟩

/-- One character of `json.dumps` output with `ensure_ascii=True`: escape
backslash, double quote, and everything outside printable ASCII. -/
def jsonEscapeChar (c : Char) : String :=
  if c = '"' then "\\\""
  else if c = '\\' then "\\\\"
  else if c = '\n' then "\\n"
  else if c = '\r' then "\\r"
  else if c = '\t' then "\\t"
  else if c.toNat = 8 then "\\b"
  else if c.toNat = 12 then "\\f"
  else if c.toNat < 32 then "\\u" ++ toHex4 c.toNat
  else if c.toNat < 127 then String.singleton c
  else if c.toNat < 65536 then "\\u" ++ toHex4 c.toNat
  else
    let v := c.toNat - 65536
    "\\u" ++ toHex4 (55296 + v / 1024) ++ "\\u" ++ toHex4 (56320 + v % 1024)

/-- A JSON string literal. -/
def jsonStr (s : String) : String :=
  "\"" ++ String.join (s.data.map jsonEscapeChar) ++ "\""

/-- A two-element JSON array of strings (a serialized Python tuple). -/
def jsonPair (p : String × String) : String :=
  "[" ++ jsonStr p.1 ++ ", " ++ jsonStr p.2 ++ "]"

/-- A JSON array of string pairs. -/
def jsonPairArray (l : List (String × String)) : String :=
  "[" ++ String.intercalate ", " (l.map jsonPair) ++ "]"

/-- Python string `<`: lexicographic comparison of code points. -/
def codePointLtb : List Char → List Char → Bool
  | [], [] => false
  | [], _ :: _ => true
  | _ :: _, [] => false
  | a :: as, b :: bs =>
    if a.toNat < b.toNat then true
    else if b.toNat < a.toNat then false
    else codePointLtb as bs

/-- Python tuple comparison `(a1, a2) <= (b1, b2)` on string pairs. -/
def pairLeb (p q : String × String) : Bool :=
  if codePointLtb p.1.data q.1.data then true
  else if codePointLtb q.1.data p.1.data then false
  else !(codePointLtb q.2.data p.2.data)

/-- Python `sorted` on a list of string pairs. -/
def sortedPairs (l : List (String × String)) : List (String × String) :=
  l.insertionSort (fun p q => pairLeb p q = true)

/-- Source `CacheKeyInputs`: the dict-valued fields are their `.items()` lists (the
iteration order of a Python dict is its insertion order, hence arbitrary for
a fixed map). -/
structure CacheKeyInputs where
  scenarioId : String
  proposalHash : String
  agentModels : List (String × String)
  archetypeOverrides : List (String × String)
  simMode : String

/-- The `json.dumps({...}, sort_keys=True)` payload of `compute_cache_key`
(keys in sorted order: agent_models, archetype_overrides, proposal_hash,
scenario_id, sim_mode). -/
def cacheKeyPayload (scenarioId proposalHash : String)
    (models overrides : List (String × String)) (simMode : String) : String :=
  "\x7b" ++ jsonStr "agent_models" ++ ": " ++ jsonPairArray models ++ ", " ++
  jsonStr "archetype_overrides" ++ ": " ++ jsonPairArray overrides ++ ", " ++
  jsonStr "proposal_hash" ++ ": " ++ jsonStr proposalHash ++ ", " ++
  jsonStr "scenario_id" ++ ": " ++ jsonStr scenarioId ++ ", " ++
  jsonStr "sim_mode" ++ ": " ++ jsonStr simMode ++ "\x7d"

/-- Source `compute_cache_key`. -/
def computeCacheKey (sha256hex : String → String) (i : CacheKeyInputs) :
    String :=
  let sortedModels := sortedPairs i.agentModels
  let sortedOverrides := sortedPairs i.archetypeOverrides
  (sha256hex (cacheKeyPayload i.scenarioId i.proposalHash sortedModels
    sortedOverrides i.simMode)).take 32

/-- A JSON scalar as found in the canonical proposal dict; numbers keep the
decimal rendering `json.dumps` would emit for them. -/
inductive JsonScalar where
  | null
  | str (s : String)
  | num (rendering : String)
  | jbool (b : Bool)
deriving DecidableEq, Repr

/-- Serialize one scalar. -/
def jsonScalarStr : JsonScalar → String
  | .null => "null"
  | .str s => jsonStr s
  | .num r => r
  | .jbool b => cond b "true" "false"

/-- The canonical proposal fields extracted by `compute_proposal_hash` via
`proposal.get(...)`; a missing key is `.null`. -/
structure CanonicalProposal where
  type : JsonScalar := .null
  title : JsonScalar := .null
  summary : JsonScalar := .null
  spatialType : JsonScalar := .null
  citywideType : JsonScalar := .null
  latitude : JsonScalar := .null
  longitude : JsonScalar := .null
  radiusKm : JsonScalar := .null
deriving DecidableEq, Repr

/-- The `json.dumps(key_fields, sort_keys=True)` string (keys in sorted
order: citywide_type, latitude, longitude, radius_km, spatial_type,
summary, title, type). -/
def proposalKeyFieldsJson (p : CanonicalProposal) : String :=
  "\x7b" ++ jsonStr "citywide_type" ++ ": " ++ jsonScalarStr p.citywideType ++ ", " ++
  jsonStr "latitude" ++ ": " ++ jsonScalarStr p.latitude ++ ", " ++
  jsonStr "longitude" ++ ": " ++ jsonScalarStr p.longitude ++ ", " ++
  jsonStr "radius_km" ++ ": " ++ jsonScalarStr p.radiusKm ++ ", " ++
  jsonStr "spatial_type" ++ ": " ++ jsonScalarStr p.spatialType ++ ", " ++
  jsonStr "summary" ++ ": " ++ jsonScalarStr p.summary ++ ", " ++
  jsonStr "title" ++ ": " ++ jsonScalarStr p.title ++ ", " ++
  jsonStr "type" ++ ": " ++ jsonScalarStr p.type ++ "\x7d"

/-- Source `compute_proposal_hash`. -/
def computeProposalHash (md5hex : String → String) (p : CanonicalProposal) :
    String :=
  (md5hex (proposalKeyFieldsJson p)).take 16

/-- The fingerprint as computed along the promote flow: the proposal hash
feeds the cache-key payload. -/
def promoteCacheKey (sha256hex md5hex : String → String) (scenarioId : String)
    (proposal : CanonicalProposal) (models overrides : List (String × String))
    (simMode : String) : String :=
  computeCacheKey sha256hex
    { scenarioId := scenarioId
      proposalHash := computeProposalHash md5hex proposal
      agentModels := models
      archetypeOverrides := overrides
      simMode := simMode }

/-- A stored `PromotionCache` row (fields relevant to invalidation; the
`inputs_json` column is represented by the agent-model map it records). -/
structure PromotionCacheEntry where
  scenarioId : String
  cacheKey : String
  agentModels : List (String × String)
  resultJson : String
deriving DecidableEq, Repr

/-- An entry depended on an agent when its recorded agent-model map names
that agent's key. -/
def entryDependsOnAgent (e : PromotionCacheEntry) (agentKey : String) : Bool :=
  e.agentModels.any (fun p => p.1 = agentKey)

/-- Source `invalidate_cache`: both branches issue the same
`DELETE ... WHERE scenario_id = :scenario_id`; the agent-key filter changes
nothing (the source comments "this is a simplified approach"). -/
def invalidateCache (store : List PromotionCacheEntry) (scenarioId : String)
    (agentKey : Option String) : List PromotionCacheEntry :=
  match agentKey with
  | some _ => store.filter (fun e => e.scenarioId ≠ scenarioId)
  | none => store.filter (fun e => e.scenarioId ≠ scenarioId)

/-! ## Simulation jobs (`app/services/simulation_job.py`,
`run_progressive_simulation` in `app/routers/ai_chat.py`) -/

/-- Source `SimulationPhase` enum. -/
inductive SimPhase where
  | initializing
  | interpreting
  | analyzingImpact
  | agentReactions
  | coalitionSynthesis
  | generatingTownhall
  | finalizing
  | complete
  | error
deriving DecidableEq, Repr

/-- Source `PHASE_WEIGHTS` (insertion order of the source dict). -/
def PHASE_WEIGHTS : List (SimPhase × ℚ) :=
  [(.initializing, 5), (.interpreting, 10), (.analyzingImpact, 10),
   (.agentReactions, 50), (.coalitionSynthesis, 10),
   (.generatingTownhall, 10), (.finalizing, 5)]

/-- Source `PHASE_START_PROGRESS`: cumulative weight before each weighted phase;
`none` for phases outside the table (`complete`, `error`). -/
def phaseStartProgress? (p : SimPhase) : Option ℚ :=
  if PHASE_WEIGHTS.any (fun q => q.1 = p) then
    some (((PHASE_WEIGHTS.takeWhile (fun q => q.1 ≠ p)).map (fun q => q.2)).sum)
  else none

/-- Source `PHASE_WEIGHTS[phase]` lookup. -/
def phaseWeight? (p : SimPhase) : Option ℚ :=
  (PHASE_WEIGHTS.find? (fun q => q.1 = p)).map (fun q => q.2)

/-- The mutable `SimulationJob` record (progress-tracking fields; the
partial-result payloads are not read by any settled property). -/
structure JobState where
  status : String
  progress : ℚ
  phase : SimPhase
  message : String
  completedAgents : ℕ
  totalAgents : ℕ
  errorMsg : Option String := none

/-- A job as produced by `JobStore.create_job`. -/
def createdJob : JobState :=
  { status := "pending"
    progress := 0
    phase := .initializing
    message := "Initializing simulation..."
    completedAgents := 0
    totalAgents := 0 }

/-- Source `SimulationProgress.start`. -/
def startUpdate (totalAgents : ℕ) (s : JobState) : JobState :=
  { s with
    status := "running"
    totalAgents := totalAgents
    phase := .initializing
    message := "Initializing simulation..."
    progress := 0 }

/-- Source `SimulationProgress.set_phase`. -/
def setPhaseUpdate (p : SimPhase) (msg : String) (s : JobState) : JobState :=
  { s with
    phase := p
    message := msg
    progress := (phaseStartProgress? p).getD s.progress }

/-- Source `SimulationProgress.agent_completed` (progress bookkeeping; the reaction
payload is appended to fields not modelled here). -/
def agentCompletedUpdate (s : JobState) : JobState :=
  let completed := s.completedAgents + 1
  let agentBase := (phaseStartProgress? .agentReactions).getD 0
  let agentWeight := (phaseWeight? .agentReactions).getD 0
  let progress :=
    if 0 < s.totalAgents then
      agentBase + ((completed : ℚ) / (s.totalAgents : ℚ)) * agentWeight
    else s.progress
  { s with
    completedAgents := completed
    progress := progress
    message := "Evaluating stakeholder reactions... " ++ toString completed
      ++ "/" ++ toString s.totalAgents }

/-- Source `SimulationProgress.complete`. -/
def completeUpdate (s : JobState) : JobState :=
  { s with
    status := "complete"
    phase := .complete
    progress := 100
    message := "Simulation complete" }

/-- Source `SimulationProgress.fail`. -/
def failUpdate (err : String) (s : JobState) : JobState :=
  { s with
    status := "error"
    phase := .error
    message := "Simulation failed: " ++ err
    errorMsg := some err }

/-- The job-store writes of `run_progressive_simulation` on the path where
every step completes: start, the interpreting / analyzing-impact /
agent-reactions phase entries, one `agent_completed` per catalog agent (the
streaming reactor invokes the callback exactly once per agent, also when the
agent's upstream call failed or its reply did not parse), the
coalition-synthesis / town-hall / finalizing phase entries (the moderator
never raises), and completion. -/
def successScript (title : String) : List (JobState → JobState) :=
  [startUpdate AGENTS.length,
   setPhaseUpdate .interpreting "Analyzing your proposal...",
   setPhaseUpdate .analyzingImpact ("Analyzing impact of: " ++ title),
   setPhaseUpdate .agentReactions "Gathering stakeholder reactions..."]
  ++ List.replicate AGENTS.length agentCompletedUpdate
  ++ [setPhaseUpdate .coalitionSynthesis "Identifying coalitions and conflicts...",
      setPhaseUpdate .generatingTownhall "Generating town hall debate...",
      setPhaseUpdate .finalizing "Preparing results...",
      completeUpdate]

/-- How a background run ends: all steps complete, or the task stops after
its first `n` job-store writes and transitions the job to `error` (the
controlled interpret-failure return does this after the second write; an
unhandled exception does it from wherever it was raised). -/
inductive RunOutcome where
  | success
  | abort (n : ℕ) (err : String)

/-- The sequence of job states written to the store by one background task,
in program order. -/
def jobUpdates (title : String) : RunOutcome → List JobState
  | .success =>
    (((successScript title).scanl (fun s f => f s) createdJob).tail)
  | .abort n err =>
    let us := ((successScript title).scanl (fun s f => f s) createdJob).tail
    let taken := us.take n
    taken ++ [failUpdate err (taken.getLastD createdJob)]

/-- Position of a phase in the §4.11 order; `none` for the terminal
`complete` / `error` phases, which the order does not mention. -/
def phaseIdx? : SimPhase → Option ℕ
  | .initializing => some 0
  | .interpreting => some 1
  | .analyzingImpact => some 2
  | .agentReactions => some 3
  | .coalitionSynthesis => some 4
  | .generatingTownhall => some 5
  | .finalizing => some 6
  | .complete => none
  | .error => none

/-- Total extension of `phaseIdx?` placing the terminal phases last. -/
def phaseIdxTotal (p : SimPhase) : ℕ := (phaseIdx? p).getD 7

/-! ## Theorems -/

lemma pyStrip_of_all_space {s : String} (h : s.data.all isPySpace) :
    pyStrip s = "" := by
  have h1 : s.data.dropWhile isPySpace = [] :=
    List.dropWhile_eq_nil_iff.mpr (by simpa [List.all_eq_true] using h)
  simp [pyStrip, h1]

/-- C8: for every thread id and every content string that is empty or
consists only of whitespace, `send_message` fails with the single typed
invalid-argument upstream error (status 400) and performs no HTTP request
to the upstream. -/
theorem sendMessage_rejects_blank_content_without_request
    (upstream : FormRequest → MessageResponse)
    (baseUrl threadId content model provider : String)
    (h : content = "" ∨ content.data.all isPySpace) :
    BackboardClient.sendMessage upstream baseUrl threadId content model
      provider = (.error ⟨400, "Message content cannot be empty"⟩, []) := by
  have hcond : content = "" ∨ pyStrip content = "" := by
    rcases h with h | h
    · exact Or.inl h
    · exact Or.inr (pyStrip_of_all_space h)
  simp [BackboardClient.sendMessage, hcond]

/-- Witness for C8 at a concrete whitespace-only content. -/
theorem sendMessage_rejects_blank_content_witness :
    BackboardClient.sendMessage (fun _ => ⟨200, "", some "ok", none⟩)
      "https://api.backboard.io/api" "thread-1" "  \t " "gemini-2.0-flash-exp"
      "google" = (.error ⟨400, "Message content cannot be empty"⟩, []) :=
  sendMessage_rejects_blank_content_without_request _ _ _ _ _ _
    (Or.inr (by decide))

namespace TownHallGenerator

lemma fallback_turns_bounds (reactions : List AgentReaction) :
    5 ≤ (fallbackTranscriptFromReactions reactions).turns.length ∧
      (fallbackTranscriptFromReactions reactions).turns.length ≤ 12 := by
  simp only [fallbackTranscriptFromReactions, List.length_take,
    List.length_append, List.length_replicate, List.length_cons,
    List.length_singleton]
  omega

lemma parse_turns_le_twelve (data : RawTranscript) :
    ((data.turns.take 12).filterMap (fun item =>
      item.map (fun p => (⟨p.1, p.2.take 250⟩ : TranscriptTurn)))).length
        ≤ 12 := by
  calc ((data.turns.take 12).filterMap _).length
      ≤ (data.turns.take 12).length := List.length_filterMap_le _ _
    _ ≤ 12 := by simp

/-- C9: the moderator's `generate` never raises (it is a total function of
the call outcome); whenever the upstream call fails, the reply fails to
decode, or decoding yields fewer than five well-formed turns, it returns the
deterministic fallback transcript built from the reactions' quotes; and
every returned transcript has between 5 and 12 turns. -/
theorem generate_total_fallback_and_turn_bounds
    (outcome : TownhallCallOutcome) (reactions : List AgentReaction) :
    (outcome = .upstreamFailure ∨ outcome = .reply none ∨
      (∃ data, outcome = .reply (some data) ∧
        ((data.turns.take 12).filterMap (fun item =>
          item.map (fun p => (⟨p.1, p.2.take 250⟩ : TranscriptTurn)))).length
            < 5) →
      generate outcome reactions = fallbackTranscriptFromReactions reactions)
    ∧ 5 ≤ (generate outcome reactions).turns.length
    ∧ (generate outcome reactions).turns.length ≤ 12 := by
  refine ⟨?_, ?_⟩
  · rintro (rfl | rfl | ⟨data, rfl, hlt⟩)
    · rfl
    · rfl
    · simp [generate, parseTranscript, hlt]
  · rcases outcome with _ | decoded
    · exact fallback_turns_bounds reactions
    · rcases decoded with _ | data
      · exact fallback_turns_bounds reactions
      · by_cases hlt : ((data.turns.take 12).filterMap (fun item =>
            item.map (fun p => (⟨p.1, p.2.take 250⟩ : TranscriptTurn)))).length
              < 5
        · simpa [generate, parseTranscript, hlt] using
            fallback_turns_bounds reactions
        · constructor
          · simpa [generate, parseTranscript, hlt] using
              Nat.le_of_not_lt hlt
          · simpa [generate, parseTranscript, hlt] using
              parse_turns_le_twelve data

/-- Witness for C9 at a concrete failed outcome and empty reaction list. -/
theorem generate_total_fallback_witness :
    generate .upstreamFailure [] = fallbackTranscriptFromReactions [] ∧
      5 ≤ (generate .upstreamFailure ([] : List AgentReaction)).turns.length ∧
      (generate .upstreamFailure ([] : List AgentReaction)).turns.length ≤ 12 :=
  ⟨(generate_total_fallback_and_turn_bounds .upstreamFailure []).1
      (Or.inl rfl),
    (generate_total_fallback_and_turn_bounds .upstreamFailure []).2⟩

end TownHallGenerator

namespace SessionThreads

/-- Every edge stored in a session has its score in `[-1, 1]`. -/
def ScoresClamped (s : SessionThreads) : Prop :=
  ∀ k e, s.relationships k = some e → -1 ≤ e.score ∧ e.score ≤ 1

lemma updateRelationship_preserves_clamped {s : SessionThreads}
    (hs : ScoresClamped s) (c : UpdateCall) :
    ScoresClamped (s.updateRelationship c).1 := by
  intro k e he
  simp only [updateRelationship] at he
  by_cases hk : k = getRelationshipKey c.fromAgent c.toAgent
  · simp only [hk, if_pos rfl] at he
    cases he
    constructor
    · exact le_max_left _ _
    · exact max_le (by norm_num) (min_le_left _ _)
  · simp only [if_neg hk] at he
    exact hs k e he

lemma applyUpdateCalls_clamped {s : SessionThreads} (hs : ScoresClamped s) :
    ∀ calls : List UpdateCall, ScoresClamped (s.applyUpdateCalls calls) := by
  intro calls
  induction calls generalizing s with
  | nil => exact hs
  | cons c rest ih =>
    exact ih (updateRelationship_preserves_clamped hs c)

/-- C4: in every session state reachable from a fresh session by any finite
sequence of `update_relationship` calls with arbitrary deltas, every stored
relationship edge's score lies in `[-1, 1]` (each update fetches or creates
the edge with zero score, adds the delta, and clamps). -/
theorem relationship_scores_stay_clamped (sid : String)
    (calls : List UpdateCall) (k : String) (e : RelationshipEdge)
    (h : ((emptySession sid).applyUpdateCalls calls).relationships k = some e) :
    -1 ≤ e.score ∧ e.score ≤ 1 :=
  applyUpdateCalls_clamped (fun _ _ h0 => by simp [emptySession] at h0) calls
    k e h

/-- Witness for C4: one call with an out-of-range delta. -/
theorem relationship_scores_stay_clamped_witness :
    (((emptySession "s").applyUpdateCalls
        [{ fromAgent := "system", toAgent := "queens_west", delta := 5
           reason := "API call for proposal reaction", now := "t0" }]).relationships
      (getRelationshipKey "system" "queens_west")
        = some { fromAgent := "system", toAgent := "queens_west", score := 1
                 lastReason := "API call for proposal reaction"
                 timestamp := some "t0" })
    ∧ (-1 ≤ (1 : ℚ) ∧ (1 : ℚ) ≤ 1) := by
  have h : ((emptySession "s").applyUpdateCalls
      [{ fromAgent := "system", toAgent := "queens_west", delta := 5
         reason := "API call for proposal reaction", now := "t0" }]).relationships
        (getRelationshipKey "system" "queens_west")
      = some { fromAgent := "system", toAgent := "queens_west", score := 1
               lastReason := "API call for proposal reaction"
               timestamp := some "t0" } := by
    norm_num [applyUpdateCalls, updateRelationship, getRelationshipKey,
      emptySession, clampQ, pyTruthyStr, max_def, min_def]
    exact fun h => h.symm
  exact ⟨h, relationship_scores_stay_clamped "s" _ _ _ h⟩

/-- C10: an `update_relationship` call on an existing edge leaves
`last_reason` unchanged when the reason argument is empty, `last_message`
unchanged when the message argument is empty, and each stance unchanged when
the corresponding argument is not supplied, while score and timestamp are
written on every call. -/
theorem updateRelationship_frame (s : SessionThreads) (c : UpdateCall)
    (e : RelationshipEdge)
    (h : s.relationships (getRelationshipKey c.fromAgent c.toAgent) = some e) :
    (s.updateRelationship c).1.relationships
        (getRelationshipKey c.fromAgent c.toAgent) = some
      { fromAgent := e.fromAgent
        toAgent := e.toAgent
        score := clampQ (-1) 1 (e.score + c.delta)
        lastReason := if c.reason = "" then e.lastReason else c.reason
        lastMessage :=
          if c.message = "" then e.lastMessage else c.message.take 120
        stanceBefore :=
          if pyTruthyStr c.stanceBefore then c.stanceBefore else e.stanceBefore
        stanceAfter :=
          if pyTruthyStr c.stanceAfter then c.stanceAfter else e.stanceAfter
        timestamp := some c.now } := by
  simp [updateRelationship, h, ite_not]

end SessionThreads

namespace AgentReactor

lemma getAgentReaction_key (agent : Agent) (outcome : AgentCallOutcome) :
    (getAgentReaction agent outcome).agentKey = agent.key := by
  cases outcome <;> rfl

/-- C2: a completed run returns exactly one reaction per catalog agent and
one zone sentiment per catalog zone, on the wait-for-all path and on the
streaming path (whose completion order is an arbitrary permutation of the
catalog), for arbitrary per-agent upstream outcomes including failures and
unparseable replies; the reaction keys and zone ids match the static
catalogs as multisets (on the wait-for-all path, even in catalog order). -/
theorem run_reaction_and_zone_catalog_invariant
    (outcomes : String → AgentCallOutcome) (order : List Agent)
    (horder : order.Perm AGENTS) :
    (getAllReactions outcomes).length = AGENTS.length
    ∧ (getAllReactions outcomes).map (fun r => r.agentKey)
        = AGENTS.map (fun a => a.key)
    ∧ (getAllReactionsWithProgress order outcomes).length = AGENTS.length
    ∧ ((getAllReactionsWithProgress order outcomes).map
        (fun r => r.agentKey)).Perm (AGENTS.map (fun a => a.key))
    ∧ (∀ reactions,
        (SentimentAggregator.aggregate reactions).length = ZONES.length
        ∧ (SentimentAggregator.aggregate reactions).map (fun z => z.zoneId)
            = ZONES.map (fun z => z.id))
    ∧ AGENTS.length = ZONES.length := by
  refine ⟨?_, ?_, ?_, ?_, ?_, ?_⟩
  · simp [getAllReactions]
  · simp only [getAllReactions, List.map_map]
    exact List.map_congr_left (fun a _ => getAgentReaction_key a _)
  · simp [getAllReactionsWithProgress, horder.length_eq]
  · have h1 : (getAllReactionsWithProgress order outcomes).map
        (fun r => r.agentKey) = order.map (fun a => a.key) := by
      simp only [getAllReactionsWithProgress, List.map_map]
      exact List.map_congr_left (fun a _ => getAgentReaction_key a _)
    rw [h1]
    exact horder.map _
  · intro reactions
    constructor
    · simp [SentimentAggregator.aggregate]
    · simp only [SentimentAggregator.aggregate, List.map_map]
      exact List.map_congr_left (fun z _ => rfl)
  · rfl

/-- Witness for C2: catalog completion order, all upstream calls failing. -/
theorem run_reaction_and_zone_catalog_invariant_witness :
    (getAllReactions (fun _ => .upstreamFailure)).length = AGENTS.length
    ∧ (getAllReactions (fun _ => .upstreamFailure)).map
        (fun r => r.agentKey) = AGENTS.map (fun a => a.key)
    ∧ (getAllReactionsWithProgress AGENTS.reverse
        (fun _ => .upstreamFailure)).length = AGENTS.length
    ∧ ((getAllReactionsWithProgress AGENTS.reverse
        (fun _ => .upstreamFailure)).map
          (fun r => r.agentKey)).Perm (AGENTS.map (fun a => a.key))
    ∧ (∀ reactions,
        (SentimentAggregator.aggregate reactions).length = ZONES.length
        ∧ (SentimentAggregator.aggregate reactions).map (fun z => z.zoneId)
            = ZONES.map (fun z => z.id))
    ∧ AGENTS.length = ZONES.length :=
  run_reaction_and_zone_catalog_invariant (fun _ => .upstreamFailure)
    AGENTS.reverse (List.reverse_perm AGENTS)

end AgentReactor

/-- A scenario's cache entry whose inputs name agent `queens_west`. -/
def cacheEntryWithAgent : PromotionCacheEntry :=
  { scenarioId := "scn-1", cacheKey := "k1"
    agentModels := [("queens_west", "gemini-2.0-flash-exp")]
    resultJson := "r1" }

/-- A cache entry of the same scenario that does not depend on
`queens_west`. -/
def cacheEntryWithoutAgent : PromotionCacheEntry :=
  { scenarioId := "scn-1", cacheKey := "k2"
    agentModels := [("north_end", "nova-lite")]
    resultJson := "r2" }

/-- C6 (failing input): invalidation with the agent-key filter deletes every
entry of the scenario, including the one that did not depend on the agent —
contrary to the claim (and to the endpoint's own docstring), which keeps
unrelated entries. -/
theorem invalidate_cache_deletes_unrelated_entries :
    invalidateCache [cacheEntryWithAgent, cacheEntryWithoutAgent] "scn-1"
        (some "queens_west") = []
    ∧ entryDependsOnAgent cacheEntryWithoutAgent "queens_west" = false := by
  decide

/-! ### C1: the aggregator is a weighted mean, not a direct mapping -/

/-- Mean of a list of rationals, zero for the empty list. -/
def meanQ (l : List ℚ) : ℚ := if l = [] then 0 else l.sum / l.length

/-- Sentiment label from a clamped average score: support above `0.2`,
oppose below `-0.2`, neutral in between. -/
def sentimentFromScore (x : ℚ) : Stance :=
  if x > 1/5 then .support else if x < -(1/5) then .oppose else .neutral

/-- One support-stance reaction from the `queens_west` agent mentioning no
zone explicitly. -/
def reactionQW : AgentReaction :=
  { agentKey := "queens_west", agentName := "Marcus Thompson"
    stance := .support, intensity := 1, supportReasons := []
    concerns := [], quote := "Great for athletics!"
    whatWouldChangeMyMind := [], zonesMostAffected := []
    proposedAmendments := [] }

/-- C1 (counterexample): on a single support reaction from the
`queens_west` agent, the aggregator's output differs from the direct
per-zone mapping the claim describes — e.g. for zone `queens_main`, which
has no matching reaction, the code emits sentiment `support` with score
`0.5` and a quote attribution instead of neutral with score `0` and empty
quote lists. -/
theorem aggregate_differs_from_direct_mapping :
    SentimentAggregator.aggregate [reactionQW]
      ≠ directMappingAggregate [reactionQW] := by
  intro h
  simp only [SentimentAggregator.aggregate, directMappingAggregate, ZONES,
    List.map_cons, List.map_nil, reactionQW, List.find?] at h
  norm_num [SentimentAggregator.zoneSentimentOf, SentimentAggregator.scoreFor,
    SentimentAggregator.zoneEffectFor, SentimentAggregator.supportQuoteFor,
    SentimentAggregator.opposeQuoteFor, SentimentAggregator.sortByIntensityDesc,
    SentimentAggregator.insertByIntensityDesc, SentimentAggregator.topQuotes,
    clampQ, round3, roundHalfEven, max_def, min_def] at h

/-- C1 (amended): the aggregator emits one sentiment per catalog zone, in
catalog order; a zone's score is the average over all reactions of the
per-reaction contribution (the signed zone-effect intensity when the
reaction lists the zone, otherwise the half-weighted signed overall
stance), clamped to `[-1, 1]` and rounded to three decimals; the sentiment
label uses the `±0.2` thresholds on the clamped average; the top-quote
lists hold the first two contributions with a non-empty quote after a
stable sort by descending contribution intensity. -/
theorem aggregate_weighted_mean_characterization
    (reactions : List AgentReaction) :
    SentimentAggregator.aggregate reactions = ZONES.map (fun z =>
      let avg := clampQ (-1) 1
        (meanQ (reactions.map (SentimentAggregator.scoreFor z.id)))
      { zoneId := z.id
        zoneName := z.name
        sentiment := sentimentFromScore avg
        score := round3 avg
        topSupportQuotes := SentimentAggregator.topQuotes
          (SentimentAggregator.sortByIntensityDesc
            (reactions.filterMap (SentimentAggregator.supportQuoteFor z.id)))
        topOpposeQuotes := SentimentAggregator.topQuotes
          (SentimentAggregator.sortByIntensityDesc
            (reactions.filterMap (SentimentAggregator.opposeQuoteFor z.id))) }) := by
  unfold SentimentAggregator.aggregate
  refine List.map_congr_left (fun z _ => ?_)
  unfold SentimentAggregator.zoneSentimentOf meanQ sentimentFromScore
  by_cases hnil : reactions.map (SentimentAggregator.scoreFor z.id) = [] <;>
    simp [hnil]

/-- The embedded quote sort is stable on ties: three pairs with equal
intensity keep their collection order, as Python's
`list.sort(key=..., reverse=True)` keeps it. -/
lemma sortByIntensityDesc_stable_on_ties (a b c : AgentReaction) :
    SentimentAggregator.sortByIntensityDesc [(a, 1/2), (b, 1/2), (c, 1/2)]
      = [(a, 1/2), (b, 1/2), (c, 1/2)] := by
  norm_num [SentimentAggregator.sortByIntensityDesc,
    SentimentAggregator.insertByIntensityDesc]

/-- The embedded quote sort orders distinct intensities descending. -/
lemma sortByIntensityDesc_orders_desc (a b : AgentReaction) :
    SentimentAggregator.sortByIntensityDesc [(a, 1/4), (b, 3/4)]
      = [(b, 3/4), (a, 1/4)] := by
  norm_num [SentimentAggregator.sortByIntensityDesc,
    SentimentAggregator.insertByIntensityDesc]

namespace SessionOp

/-- All assistant/thread handles of `s` survive into `s'`. -/
def HandlesPreserved (s s' : SessionThreads) : Prop :=
  (∀ v, s.interpreterAssistantId = some v → s'.interpreterAssistantId = some v)
  ∧ (∀ v, s.interpreterThreadId = some v → s'.interpreterThreadId = some v)
  ∧ (∀ v, s.reactorAssistantId = some v → s'.reactorAssistantId = some v)
  ∧ (∀ k v, s.agentThreads k = some v → s'.agentThreads k = some v)
  ∧ (∀ v, s.townhallAssistantId = some v → s'.townhallAssistantId = some v)
  ∧ (∀ v, s.townhallThreadId = some v → s'.townhallThreadId = some v)
  ∧ (∀ v, s.dmAssistantId = some v → s'.dmAssistantId = some v)
  ∧ (∀ k v, s.dmThreads k = some v → s'.dmThreads k = some v)

lemma handlesPreserved_refl (s : SessionThreads) : HandlesPreserved s s :=
  ⟨fun _ h => h, fun _ h => h, fun _ h => h, fun _ _ h => h, fun _ h => h,
   fun _ h => h, fun _ h => h, fun _ _ h => h⟩

lemma handlesPreserved_trans {s₁ s₂ s₃ : SessionThreads}
    (h₁ : HandlesPreserved s₁ s₂) (h₂ : HandlesPreserved s₂ s₃) :
    HandlesPreserved s₁ s₃ :=
  ⟨fun v h => h₂.1 v (h₁.1 v h),
   fun v h => h₂.2.1 v (h₁.2.1 v h),
   fun v h => h₂.2.2.1 v (h₁.2.2.1 v h),
   fun k v h => h₂.2.2.2.1 k v (h₁.2.2.2.1 k v h),
   fun v h => h₂.2.2.2.2.1 v (h₁.2.2.2.2.1 v h),
   fun v h => h₂.2.2.2.2.2.1 v (h₁.2.2.2.2.2.1 v h),
   fun v h => h₂.2.2.2.2.2.2.1 v (h₁.2.2.2.2.2.2.1 v h),
   fun k v h => h₂.2.2.2.2.2.2.2 k v (h₁.2.2.2.2.2.2.2 k v h)⟩

lemma apply_preserves (s : SessionThreads) (op : SessionOp) :
    HandlesPreserved s (SessionOp.apply s op) := by
  cases op with
  | updRel c => exact handlesPreserved_refl _
  | interpInit aid tid =>
    by_cases h1 : s.interpreterThreadId.isSome
    · simp only [SessionOp.apply, if_pos h1]
      exact handlesPreserved_refl _
    · refine ⟨?_, ?_, ?_, ?_, ?_, ?_, ?_, ?_⟩ <;> intros <;>
        by_cases h2 : s.interpreterAssistantId.isSome <;> cases tid <;>
          simp_all [SessionOp.apply]
  | townhallInit aid tid =>
    by_cases h1 : s.townhallThreadId.isSome
    · simp only [SessionOp.apply, if_pos h1]
      exact handlesPreserved_refl _
    · refine ⟨?_, ?_, ?_, ?_, ?_, ?_, ?_, ?_⟩ <;> intros <;>
        by_cases h2 : s.townhallAssistantId.isSome <;> cases tid <;>
          simp_all [SessionOp.apply]
  | reactorThreadInit key aid tid =>
    by_cases h1 : (s.agentThreads key).isSome
    · simp only [SessionOp.apply, if_pos h1]
      exact handlesPreserved_refl _
    · refine ⟨?_, ?_, ?_, ?_, ?_, ?_, ?_, ?_⟩ <;> intros <;>
        by_cases h2 : s.reactorAssistantId.isSome <;> cases tid <;>
          (try simp_all [SessionOp.apply]) <;>
            (try (intro hk; subst hk; simp_all))
  | dmInit key aid tid =>
    by_cases h1 : (s.dmThreads key).isSome
    · simp only [SessionOp.apply, if_pos h1]
      exact handlesPreserved_refl _
    · refine ⟨?_, ?_, ?_, ?_, ?_, ?_, ?_, ?_⟩ <;> intros <;>
        by_cases h2 : s.dmAssistantId.isSome <;> cases tid <;>
          (try simp_all [SessionOp.apply]) <;>
            (try (intro hk; subst hk; simp_all))

lemma applyAll_preserves (s : SessionThreads) (ops : List SessionOp) :
    HandlesPreserved s (SessionOp.applyAll s ops) := by
  induction ops generalizing s with
  | nil => exact handlesPreserved_refl s
  | cons op rest ih =>
    exact handlesPreserved_trans (apply_preserves s op) (ih (apply s op))

end SessionOp

/-- C7 (amended): starting from a fresh session, once an agent's thread id
(or any assistant id or other thread handle) is stored, every lazy-creation
block whose absence check runs after the store — the operations that follow
it in the model — leaves it unchanged: such later operations bind at most
one thread id per agent, and a missing entry only leads to lazy creation.
Blocks that passed their absence check before the store can still overwrite
it, since check and assignment straddle awaited upstream calls with no
session lock; see the fan-out counterexample below. -/
theorem thread_bind_stability (sid : String) (ops extra : List SessionOp)
    (k t : String)
    (h : (SessionOp.applyAll (SessionThreads.emptySession sid) ops).agentThreads
      k = some t) :
    ((SessionOp.applyAll (SessionThreads.emptySession sid)
        (ops ++ extra)).agentThreads k = some t)
    ∧ (∀ t', (SessionOp.applyAll (SessionThreads.emptySession sid)
        (ops ++ extra)).agentThreads k = some t' → t' = t)
    ∧ (∀ v, (SessionOp.applyAll (SessionThreads.emptySession sid)
          ops).interpreterAssistantId = some v →
        (SessionOp.applyAll (SessionThreads.emptySession sid)
          (ops ++ extra)).interpreterAssistantId = some v)
    ∧ (∀ v, (SessionOp.applyAll (SessionThreads.emptySession sid)
          ops).interpreterThreadId = some v →
        (SessionOp.applyAll (SessionThreads.emptySession sid)
          (ops ++ extra)).interpreterThreadId = some v)
    ∧ (∀ v, (SessionOp.applyAll (SessionThreads.emptySession sid)
          ops).reactorAssistantId = some v →
        (SessionOp.applyAll (SessionThreads.emptySession sid)
          (ops ++ extra)).reactorAssistantId = some v)
    ∧ (∀ v, (SessionOp.applyAll (SessionThreads.emptySession sid)
          ops).townhallAssistantId = some v →
        (SessionOp.applyAll (SessionThreads.emptySession sid)
          (ops ++ extra)).townhallAssistantId = some v)
    ∧ (∀ v, (SessionOp.applyAll (SessionThreads.emptySession sid)
          ops).townhallThreadId = some v →
        (SessionOp.applyAll (SessionThreads.emptySession sid)
          (ops ++ extra)).townhallThreadId = some v)
    ∧ (∀ v, (SessionOp.applyAll (SessionThreads.emptySession sid)
          ops).dmAssistantId = some v →
        (SessionOp.applyAll (SessionThreads.emptySession sid)
          (ops ++ extra)).dmAssistantId = some v)
    ∧ (∀ k' v, (SessionOp.applyAll (SessionThreads.emptySession sid)
          ops).dmThreads k' = some v →
        (SessionOp.applyAll (SessionThreads.emptySession sid)
          (ops ++ extra)).dmThreads k' = some v) := by
  have hsplit : SessionOp.applyAll (SessionThreads.emptySession sid)
      (ops ++ extra) = SessionOp.applyAll
        (SessionOp.applyAll (SessionThreads.emptySession sid) ops) extra :=
    List.foldl_append _ _ _ _
  have hp := SessionOp.applyAll_preserves
    (SessionOp.applyAll (SessionThreads.emptySession sid) ops) extra
  have hkeep : (SessionOp.applyAll (SessionThreads.emptySession sid)
      (ops ++ extra)).agentThreads k = some t := by
    rw [hsplit]; exact hp.2.2.2.1 k t h
  refine ⟨hkeep, ?_, ?_, ?_, ?_, ?_, ?_, ?_, ?_⟩
  · intro t' ht'
    rw [hkeep] at ht'
    exact (Option.some_inj.mp ht').symm
  · intro v hv; rw [hsplit]; exact hp.1 v hv
  · intro v hv; rw [hsplit]; exact hp.2.1 v hv
  · intro v hv; rw [hsplit]; exact hp.2.2.1 v hv
  · intro v hv; rw [hsplit]; exact hp.2.2.2.2.1 v hv
  · intro v hv; rw [hsplit]; exact hp.2.2.2.2.2.1 v hv
  · intro v hv; rw [hsplit]; exact hp.2.2.2.2.2.2.1 v hv
  · intro k' v hv; rw [hsplit]; exact hp.2.2.2.2.2.2.2 k' v hv

/-- Witness for C7: a stored thread id survives a later create attempt with
a different id. -/
theorem thread_bind_stability_witness :
    (SessionOp.applyAll (SessionThreads.emptySession "s")
      ([SessionOp.reactorThreadInit "queens_west" "asst-1" (some "thread-1")]
        ++ [SessionOp.reactorThreadInit "queens_west" "asst-2"
              (some "thread-2")])).agentThreads "queens_west"
      = some "thread-1" :=
  (thread_bind_stability "s"
    [SessionOp.reactorThreadInit "queens_west" "asst-1" (some "thread-1")]
    [SessionOp.reactorThreadInit "queens_west" "asst-2" (some "thread-2")]
    "queens_west" "thread-1" (by decide)).1

/-- One per-agent task of the reactor fan-out, as `_get_agent_thread` runs
it: the value its `if not session.reactor_assistant_id` check read (in
`get_all_reactions` every task runs this check synchronously before its
first await, so on a fresh session every task reads `None`), and the
assistant id its `create_assistant` call mints. -/
structure ReactorTask where
  guardSawNone : Bool
  aid : String
deriving DecidableEq, Repr

/-- Completion of one task: the post-await assignment
`session.reactor_assistant_id = await self.client.create_assistant(...)`
runs exactly when that task's earlier check saw the id absent — the check
is not re-evaluated after the await. -/
def applyTaskCompletion (cell : Option String) (t : ReactorTask) :
    Option String :=
  if t.guardSawNone then some t.aid else cell

/-- Successive values of `session.reactor_assistant_id` during one
concurrent fan-out, as the tasks' upstream responses arrive in order. -/
def fanoutTrace (cell0 : Option String) (tasks : List ReactorTask) :
    List (Option String) :=
  tasks.scanl applyTaskCompletion cell0

/-- C7 (counterexample): on a fresh session, a concurrent fan-out of two
agent tasks — both of whose absence checks ran before either upstream
response arrived, which is how `asyncio.gather` schedules them — first
stores assistant id `asst-1` and then overwrites it with the different id
`asst-2`; so an assistant id, once stored, is not never-overwritten. -/
theorem reactor_assistant_id_overwritten_on_fanout :
    fanoutTrace none [⟨true, "asst-1"⟩, ⟨true, "asst-2"⟩]
      = [none, some "asst-1", some "asst-2"]
    ∧ ("asst-1" : String) ≠ "asst-2" := by
  decide

/-! ### C5: determinism and structure of the fingerprint computation -/

lemma char_toNat_inj {a b : Char} (h : a.toNat = b.toNat) : a = b := by
  rcases a with ⟨⟨av⟩, ha⟩
  rcases b with ⟨⟨bv⟩, hb⟩
  simp only [Char.toNat, UInt32.toNat] at h
  have hv : av = bv := BitVec.toNat_injective h
  subst hv
  rfl

lemma codePointLtb_asymm :
    ∀ a b, codePointLtb a b = true → codePointLtb b a = false := by
  intro a
  induction a with
  | nil => intro b h; cases b <;> simp_all [codePointLtb]
  | cons x xs ih =>
    intro b h
    cases b with
    | nil => simp [codePointLtb] at h
    | cons y ys =>
      simp only [codePointLtb] at h ⊢
      by_cases h1 : x.toNat < y.toNat
      · have h2 : ¬ y.toNat < x.toNat := by omega
        simp [h1, h2]
      · by_cases h2 : y.toNat < x.toNat
        · simp [h1, h2] at h
        · simp only [if_neg h1, if_neg h2] at h ⊢
          exact ih ys h

lemma codePointLtb_conn :
    ∀ a b, codePointLtb a b = false → codePointLtb b a = false → a = b := by
  intro a
  induction a with
  | nil => intro b h _; cases b <;> simp_all [codePointLtb]
  | cons x xs ih =>
    intro b h h'
    cases b with
    | nil => simp [codePointLtb] at h'
    | cons y ys =>
      simp only [codePointLtb] at h h'
      by_cases h1 : x.toNat < y.toNat
      · simp [h1] at h
      · by_cases h2 : y.toNat < x.toNat
        · simp [h1, h2] at h'
        · simp only [if_neg h1, if_neg h2] at h h'
          have hx : x = y := char_toNat_inj (by omega)
          rw [hx, ih ys h h']

lemma codePointLtb_trans :
    ∀ a b c, codePointLtb a b = true → codePointLtb b c = true →
      codePointLtb a c = true := by
  intro a
  induction a with
  | nil =>
    intro b c h h'
    cases b with
    | nil => simp [codePointLtb] at h
    | cons y ys => cases c <;> simp_all [codePointLtb]
  | cons x xs ih =>
    intro b c h h'
    cases b with
    | nil => simp [codePointLtb] at h
    | cons y ys =>
      cases c with
      | nil => simp [codePointLtb] at h'
      | cons z zs =>
        simp only [codePointLtb] at h h' ⊢
        by_cases h1 : x.toNat < y.toNat <;> by_cases h2 : y.toNat < z.toNat
        · simp [show x.toNat < z.toNat by omega]
        · by_cases h3 : z.toNat < y.toNat
          · simp [h2, h3] at h'
          · have hyz : y = z := char_toNat_inj (by omega)
            subst hyz
            simp_all
        · have hxy : ¬ y.toNat < x.toNat := by
            by_contra hc
            simp [h1, hc] at h
          have hx : x = y := char_toNat_inj (by omega)
          subst hx
          simp_all
        · by_cases h3 : y.toNat < x.toNat
          · simp [h1, h3] at h
          · by_cases h4 : z.toNat < y.toNat
            · simp [h2, h4] at h'
            · have hx : x = y := char_toNat_inj (by omega)
              have hy : y = z := char_toNat_inj (by omega)
              subst hx; subst hy
              simp only [lt_irrefl, if_neg] at h h' ⊢
              simp_all
              exact ih _ _ h h'

lemma codePointLtb_irrefl : ∀ l, codePointLtb l l = false := by
  intro l
  induction l with
  | nil => rfl
  | cons x xs ih => simp [codePointLtb, ih]

lemma pairLeb_total (p q : String × String) :
    pairLeb p q = true ∨ pairLeb q p = true := by
  unfold pairLeb
  by_cases a : codePointLtb p.1.data q.1.data
  · left; simp [a]
  · by_cases b : codePointLtb q.1.data p.1.data
    · right; simp [a, b]
    · by_cases c : codePointLtb q.2.data p.2.data
      · right
        have : codePointLtb p.2.data q.2.data = false :=
          codePointLtb_asymm _ _ c
        simp [a, b, this]
      · left; simp [a, b, c]

lemma pairLeb_antisymm (p q : String × String)
    (h1 : pairLeb p q = true) (h2 : pairLeb q p = true) : p = q := by
  unfold pairLeb at h1 h2
  by_cases a : codePointLtb p.1.data q.1.data
  · have : codePointLtb q.1.data p.1.data = false := codePointLtb_asymm _ _ a
    simp [a, this] at h2
  · by_cases b : codePointLtb q.1.data p.1.data
    · simp [a, b] at h1
    · simp only [if_neg a, if_neg b, Bool.not_eq_true'] at h1 h2
      have hfst : p.1 = q.1 := String.ext (codePointLtb_conn _ _ (by simpa using a) (by simpa using b))
      have hsnd : p.2 = q.2 := String.ext (codePointLtb_conn _ _ h2 h1)
      exact Prod.ext hfst hsnd

lemma pairLeb_trans (p q r : String × String)
    (h1 : pairLeb p q = true) (h2 : pairLeb q r = true) :
    pairLeb p r = true := by
  unfold pairLeb at h1 h2 ⊢
  by_cases a : codePointLtb p.1.data q.1.data <;>
    by_cases b : codePointLtb q.1.data r.1.data
  · simp [codePointLtb_trans _ _ _ a b]
  · by_cases c : codePointLtb r.1.data q.1.data
    · simp [b, c] at h2
    · have hqr : q.1 = r.1 := String.ext (codePointLtb_conn _ _ (by simpa using b) (by simpa using c))
      simp [← hqr, a]
  · by_cases c : codePointLtb q.1.data p.1.data
    · simp [a, c] at h1
    · have hpq : p.1 = q.1 := String.ext (codePointLtb_conn _ _ (by simpa using a) (by simpa using c))
      simp [hpq, b]
  · by_cases c : codePointLtb q.1.data p.1.data
    · simp [a, c] at h1
    · by_cases d : codePointLtb r.1.data q.1.data
      · simp [b, d] at h2
      · have hpq : p.1 = q.1 := String.ext (codePointLtb_conn _ _ (by simpa using a) (by simpa using c))
        have hqr : q.1 = r.1 := String.ext (codePointLtb_conn _ _ (by simpa using b) (by simpa using d))
        simp only [if_neg a, if_neg c, Bool.not_eq_true'] at h1
        simp only [if_neg b, if_neg d, Bool.not_eq_true'] at h2
        have hpr1 : codePointLtb p.1.data r.1.data = false := by
          rw [hpq, hqr]; exact codePointLtb_irrefl _
        have hrp1 : codePointLtb r.1.data p.1.data = false := by
          rw [hpq, hqr]; exact codePointLtb_irrefl _
        have hsnd : codePointLtb r.2.data p.2.data = false := by
          by_contra hc
          rw [Bool.not_eq_false] at hc
          by_cases e : codePointLtb p.2.data q.2.data
          · have := codePointLtb_trans _ _ _ hc e
            simp [this] at h2
          · have hp2q2 : p.2 = q.2 :=
              String.ext (codePointLtb_conn _ _ (by simpa using e) h1)
            rw [hp2q2] at hc
            simp [hc] at h2
        simp [hpr1, hrp1, hsnd]

instance : IsTotal (String × String) (fun p q => pairLeb p q = true) :=
  ⟨pairLeb_total⟩

instance : IsTrans (String × String) (fun p q => pairLeb p q = true) :=
  ⟨pairLeb_trans⟩

instance : IsAntisymm (String × String) (fun p q => pairLeb p q = true) :=
  ⟨pairLeb_antisymm⟩

/-- Sorting is invariant under permutation of the input pairs: two dicts
holding the same map serialize identically. -/
lemma sortedPairs_eq_of_perm {l₁ l₂ : List (String × String)}
    (h : l₁.Perm l₂) : sortedPairs l₁ = sortedPairs l₂ :=
  List.eq_of_perm_of_sorted
    ((List.perm_insertionSort _ l₁).trans
      (h.trans (List.perm_insertionSort _ l₂).symm))
    (List.sorted_insertionSort _ l₁) (List.sorted_insertionSort _ l₂)

/-- C5: the fingerprint is a deterministic function of scenario id, canonical
proposal, agent-model map, persona-hash map and mode — permuting the dict
iteration orders leaves the key unchanged — and the key is the SHA-256
digest (hex) of the sorted-keys JSON payload, with the maps as sorted pair
lists, truncated to 32 characters, where the proposal hash is the MD5 digest
(hex) of the sorted-keys JSON of the canonical proposal fields truncated to
16 characters. -/
theorem compute_cache_key_deterministic_and_structured
    (sha256hex md5hex : String → String) (scenarioId simMode : String)
    (p : CanonicalProposal)
    (models₁ models₂ overrides₁ overrides₂ : List (String × String))
    (hm : models₁.Perm models₂) (ho : overrides₁.Perm overrides₂) :
    promoteCacheKey sha256hex md5hex scenarioId p models₁ overrides₁ simMode
      = promoteCacheKey sha256hex md5hex scenarioId p models₂ overrides₂
          simMode
    ∧ (∀ i : CacheKeyInputs, computeCacheKey sha256hex i
        = (sha256hex (cacheKeyPayload i.scenarioId i.proposalHash
            (sortedPairs i.agentModels) (sortedPairs i.archetypeOverrides)
            i.simMode)).take 32)
    ∧ computeProposalHash md5hex p
        = (md5hex (proposalKeyFieldsJson p)).take 16 := by
  refine ⟨?_, fun i => rfl, rfl⟩
  unfold promoteCacheKey computeCacheKey
  rw [sortedPairs_eq_of_perm hm, sortedPairs_eq_of_perm ho]

/-- Witness for C5: the same maps presented in two insertion orders. -/
theorem compute_cache_key_deterministic_witness :
    promoteCacheKey (fun s => s) (fun s => s) "scn-1" {}
        [("queens_west", "nova-lite"), ("north_end", "gemini-2.0-flash-exp")]
        [("sydenham", "2b6a")] "progressive"
      = promoteCacheKey (fun s => s) (fun s => s) "scn-1" {}
          [("north_end", "gemini-2.0-flash-exp"), ("queens_west", "nova-lite")]
          [("sydenham", "2b6a")] "progressive" :=
  (compute_cache_key_deterministic_and_structured (fun s => s) (fun s => s)
    "scn-1" "progressive" {} _ _ _ _ (List.Perm.swap _ _ _)
    (List.Perm.refl _)).1

/-! ### C3: monotone progress and ordered phases in progressive jobs -/

/-- Joint order on job states: progress does not decrease and the phase does
not move backwards in the §4.11 order (terminal phases sit at the end). -/
def progressPhaseLe (a b : JobState) : Prop :=
  a.progress ≤ b.progress ∧ phaseIdxTotal a.phase ≤ phaseIdxTotal b.phase

instance : IsTrans JobState progressPhaseLe :=
  ⟨fun _ _ _ h1 h2 => ⟨h1.1.trans h2.1, h1.2.trans h2.2⟩⟩

lemma progressPhaseLe_refl (s : JobState) : progressPhaseLe s s :=
  ⟨le_refl _, le_refl _⟩

lemma phaseIdxTotal_le_seven (p : SimPhase) : phaseIdxTotal p ≤ 7 := by
  cases p <;> simp [phaseIdxTotal, phaseIdx?]

lemma phaseIdx?_eq_total {p : SimPhase} {i : ℕ} (h : phaseIdx? p = some i) :
    i = phaseIdxTotal p := by
  cases p <;> simp_all [phaseIdx?, phaseIdxTotal]

lemma progressPhaseLe_failUpdate (err : String) (a s : JobState)
    (h : a.progress ≤ s.progress) : progressPhaseLe a (failUpdate err s) :=
  ⟨h, le_trans (phaseIdxTotal_le_seven _) (by simp [failUpdate, phaseIdxTotal, phaseIdx?])⟩

lemma pairwise_rel_getLastD {α : Type _} {R : α → α → Prop}
    (hR : ∀ x, R x x) :
    ∀ (l : List α) (_ : l.Pairwise R) (a : α) (_ : a ∈ l) (d : α),
      R a (l.getLastD d) := by
  intro l
  induction l with
  | nil => intro _ a ha; cases ha
  | cons x xs ih =>
    intro hP a ha d
    rw [List.getLastD_cons]
    rcases List.mem_cons.mp ha with h0 | ha
    · subst h0
      rcases List.mem_cons.mp (List.getLastD_mem_cons xs a) with h | h
      · rw [h]; exact hR a
      · exact (List.pairwise_cons.mp hP).1 _ h
    · exact ih (List.pairwise_cons.mp hP).2 a ha x

lemma getLastD_mem_or {α : Type _} :
    ∀ (l : List α) (d : α), l.getLastD d ∈ l ∨ l.getLastD d = d := by
  intro l
  induction l with
  | nil => intro d; exact Or.inr rfl
  | cons x xs ih =>
    intro d
    rw [List.getLastD_cons]
    rcases ih x with h | h
    · exact Or.inl (List.mem_cons_of_mem _ h)
    · exact Or.inl (by rw [h]; exact List.mem_cons_self _ _)

lemma pairwise_filterMap_le {l : List JobState}
    (h : l.Pairwise progressPhaseLe) :
    (l.filterMap (fun s => phaseIdx? s.phase)).Pairwise (· ≤ ·) := by
  induction l with
  | nil => simp
  | cons x xs ih =>
    rcases List.pairwise_cons.mp h with ⟨hx, hxs⟩
    rw [List.filterMap_cons]
    cases hi : phaseIdx? x.phase with
    | none => exact ih hxs
    | some i =>
      refine List.pairwise_cons.mpr ⟨?_, ih hxs⟩
      intro j hj
      rcases List.mem_filterMap.mp hj with ⟨s, hs, hjs⟩
      rw [phaseIdx?_eq_total hi, phaseIdx?_eq_total hjs]
      exact (hx s hs).2

lemma replicate_agents (f : JobState → JobState) :
    List.replicate AGENTS.length f =
      [f, f, f, f, f, f, f, f, f, f, f, f, f, f, f, f, f, f, f, f, f] := rfl

lemma psp_initializing : phaseStartProgress? .initializing = some 0 := by
  simp [phaseStartProgress?, PHASE_WEIGHTS]
lemma psp_interpreting : phaseStartProgress? .interpreting = some 5 := by
  simp [phaseStartProgress?, PHASE_WEIGHTS]
lemma psp_analyzingImpact : phaseStartProgress? .analyzingImpact = some 15 := by
  simp [phaseStartProgress?, PHASE_WEIGHTS]
  norm_num
lemma psp_agentReactions : phaseStartProgress? .agentReactions = some 25 := by
  simp [phaseStartProgress?, PHASE_WEIGHTS]
  norm_num
lemma psp_coalitionSynthesis :
    phaseStartProgress? .coalitionSynthesis = some 75 := by
  simp [phaseStartProgress?, PHASE_WEIGHTS]
  norm_num
lemma psp_generatingTownhall :
    phaseStartProgress? .generatingTownhall = some 85 := by
  simp [phaseStartProgress?, PHASE_WEIGHTS]
  norm_num
lemma psp_finalizing : phaseStartProgress? .finalizing = some 95 := by
  simp [phaseStartProgress?, PHASE_WEIGHTS]
  norm_num
lemma pw_agentReactions : phaseWeight? .agentReactions = some 50 := by
  simp [phaseWeight?, PHASE_WEIGHTS]

set_option maxHeartbeats 3200000 in
lemma success_updates_chain (title : String) :
    List.Chain' progressPhaseLe (jobUpdates title .success) := by
  simp only [jobUpdates, successScript, replicate_agents, List.cons_append,
    List.nil_append, List.scanl, List.tail_cons, List.chain'_cons,
    List.chain'_singleton]
  norm_num [progressPhaseLe, startUpdate, setPhaseUpdate,
    agentCompletedUpdate, completeUpdate, createdJob, psp_initializing,
    psp_interpreting, psp_analyzingImpact, psp_agentReactions,
    psp_coalitionSynthesis, psp_generatingTownhall, psp_finalizing,
    pw_agentReactions, phaseIdxTotal, phaseIdx?, AGENTS]

set_option maxHeartbeats 1600000 in
lemma success_updates_mem (title : String) :
    ∀ s ∈ jobUpdates title .success, s.completedAgents ≤ s.totalAgents := by
  simp only [jobUpdates, successScript, replicate_agents, List.cons_append,
    List.nil_append, List.scanl, List.tail_cons, List.forall_mem_cons,
    List.mem_singleton]
  norm_num [startUpdate, setPhaseUpdate, agentCompletedUpdate,
    completeUpdate, createdJob, psp_initializing, psp_interpreting,
    psp_analyzingImpact, psp_agentReactions, psp_coalitionSynthesis,
    psp_generatingTownhall, psp_finalizing, pw_agentReactions, AGENTS]

/-- C3: across the whole sequence of job-store updates made by one
progressive background task — on the all-steps path and on every
fail-after-n-updates path — the recorded progress never decreases
(consecutive updates are non-decreasing), the phases among the seven of
§4.11 appear in their listed order, and `completed_agents ≤ total_agents`
holds in every recorded state. -/
theorem progressive_job_updates_monotone (title : String) (o : RunOutcome) :
    List.Chain' (fun a b => a.progress ≤ b.progress) (jobUpdates title o)
    ∧ List.Sorted (· ≤ ·)
        ((jobUpdates title o).filterMap (fun s => phaseIdx? s.phase))
    ∧ ∀ s ∈ jobUpdates title o, s.completedAgents ≤ s.totalAgents := by
  have hPW : (jobUpdates title .success).Pairwise progressPhaseLe :=
    List.chain'_iff_pairwise.mp (success_updates_chain title)
  have hMem := success_updates_mem title
  rcases o with _ | ⟨n, err⟩
  · exact ⟨(hPW.imp (fun h => h.1)).chain', pairwise_filterMap_le hPW, hMem⟩
  · have habort : jobUpdates title (.abort n err)
        = (jobUpdates title .success).take n
          ++ [failUpdate err
                (((jobUpdates title .success).take n).getLastD createdJob)] :=
      rfl
    set taken := (jobUpdates title .success).take n with htaken
    have hPWtaken : taken.Pairwise progressPhaseLe :=
      hPW.sublist (List.take_sublist n _)
    have hbridge : ∀ a ∈ taken,
        progressPhaseLe a (failUpdate err (taken.getLastD createdJob)) :=
      fun a ha => progressPhaseLe_failUpdate err a _
        ((pairwise_rel_getLastD progressPhaseLe_refl taken hPWtaken a ha
          createdJob).1)
    have hPWall : (taken
        ++ [failUpdate err (taken.getLastD createdJob)]).Pairwise
          progressPhaseLe := by
      rw [List.pairwise_append]
      refine ⟨hPWtaken, List.pairwise_singleton _ _, ?_⟩
      intro a ha b hb
      rcases List.mem_singleton.mp hb with rfl
      exact hbridge a ha
    rw [habort]
    refine ⟨(hPWall.imp (fun h => h.1)).chain', pairwise_filterMap_le hPWall,
      ?_⟩
    intro s hs
    rcases List.mem_append.mp hs with hs | hs
    · exact hMem s ((List.take_sublist n _).subset hs)
    · rcases List.mem_singleton.mp hs with rfl
      rcases getLastD_mem_or taken createdJob with h | h
      · simpa [failUpdate] using hMem _ ((List.take_sublist n _).subset h)
      · rw [h]
        simp [failUpdate, createdJob]

/-- An existing edge used by the C10 witness. -/
def frameEdge0 : RelationshipEdge :=
  { fromAgent := "system", toAgent := "queens_west", score := 0
    lastReason := "seed", lastMessage := "m0"
    stanceBefore := some "neutral", stanceAfter := none
    timestamp := some "t0" }

/-- A session holding `frameEdge0`. -/
def frameSession0 : SessionThreads :=
  { sessionId := "s"
    relationships := fun k =>
      if k = "system->queens_west" then some frameEdge0 else none }

/-- An update call with an empty reason, a non-empty message, no
stance-before and a supplied stance-after. -/
def frameCall0 : SessionThreads.UpdateCall :=
  { fromAgent := "system", toAgent := "queens_west", delta := 1/4
    reason := "", message := "hello", stanceBefore := none
    stanceAfter := some "support", now := "t1" }

/-- Witness for C10 at the concrete session, edge and call. -/
theorem updateRelationship_frame_witness :
    (frameSession0.updateRelationship frameCall0).1.relationships
        (SessionThreads.getRelationshipKey frameCall0.fromAgent
          frameCall0.toAgent) = some
      { fromAgent := frameEdge0.fromAgent
        toAgent := frameEdge0.toAgent
        score := clampQ (-1) 1 (frameEdge0.score + frameCall0.delta)
        lastReason :=
          if frameCall0.reason = "" then frameEdge0.lastReason
          else frameCall0.reason
        lastMessage :=
          if frameCall0.message = "" then frameEdge0.lastMessage
          else frameCall0.message.take 120
        stanceBefore :=
          if pyTruthyStr frameCall0.stanceBefore then frameCall0.stanceBefore
          else frameEdge0.stanceBefore
        stanceAfter :=
          if pyTruthyStr frameCall0.stanceAfter then frameCall0.stanceAfter
          else frameEdge0.stanceAfter
        timestamp := some frameCall0.now } :=
  SessionThreads.updateRelationship_frame frameSession0 frameCall0 frameEdge0
    rfl
